import Mathlib

/-!
Verification of the upload/validation/retry core of the brain-tumor-detection
widget (src/components/brain-tumor-uploader.tsx), shallowly embedded in Lean.

Conventions used throughout this embedding:
  - JavaScript strings become `String`, JS numbers appearing in exact integer
    roles become `Nat`/`Int`, JS numbers used in fractional arithmetic
    (progress/ETA, JSON numbers) become `Rat`.
  - `s.includes(pat)` is modelled via `String.splitOn` (a string contains a
    non-empty pattern iff splitting on it yields more than one piece).
  - JS truthiness of an optional string (`undefined`/empty are falsy) is the
    predicate `strTruthy`.
  - The `Math.log`/`toFixed(1)` float formatting inside `humanFileSize` is
    modelled in exact arithmetic (`Nat.log` and round-half-up to one decimal);
    no claim inspects those digits.
-/

namespace BrainTumor

/-! JS string primitives, modelled structurally on the character list (the
corresponding `String` library functions are semantically identical but are
not kernel-reducible, which concrete witnesses need). -/

def lowerChars (cs : List Char) : List Char := cs.map Char.toLower

def trimChars (cs : List Char) : List Char :=
  ((cs.dropWhile Char.isWhitespace).reverse.dropWhile Char.isWhitespace).reverse

def isPrefixChars : List Char → List Char → Bool
  | [], _ => true
  | _ :: _, [] => false
  | p :: ps, c :: cs => p == c && isPrefixChars ps cs

def containsChars (pat : List Char) : List Char → Bool
  | [] => isPrefixChars pat []
  | c :: cs => isPrefixChars pat (c :: cs) || containsChars pat cs

/-- JS `s.includes(pat)`. -/
def strIncludes (s pat : String) : Bool := containsChars pat.toList s.toList

/-- JS `s.startsWith(pat)`. -/
def strStartsWith (s pat : String) : Bool := isPrefixChars pat.toList s.toList

/-- JS `s.toLowerCase()`. -/
def strToLower (s : String) : String := String.mk (lowerChars s.toList)

/-- JS `s.trim()`. -/
def strTrim (s : String) : String := String.mk (trimChars s.toList)

/-- JS truthiness of an optional string: `undefined` and the empty string are
falsy, every other string is truthy. -/
def strTruthy : Option String → Bool
  | none => false
  | some s => !(s == "")

/-! ## Constants (source lines 25-28) -/

def MAX_SIZE_BYTES : Nat := 10 * 1024 * 1024

def ALLOWED_TYPES : List String := ["image/jpeg", "image/png", "image/webp"]

def MIN_WIDTH : Nat := 256

def MIN_HEIGHT : Nat := 256

/-! ## Candidate file

A candidate file as the Validator sees it: declared media type, byte size and
the asynchronously decoded pixel dimensions (`none` models a decode failure in
`validateDimensions`). -/

structure CandidateFile where
  ftype : String
  size : Nat
  decode : Option (Nat × Nat)

/-! ## humanFileSize (source lines 59-65)

`Math.floor(Math.log(bytes)/Math.log(1024))` is `Nat.log 1024 bytes` for
positive `bytes`; `toFixed(1)` is modelled as round-half-up to one decimal. -/

def sizesList : List String := ["B", "KB", "MB", "GB"]

/-- One-decimal rendering of `bytes / p` (round half up), matching `toFixed(1)`. -/
def oneDecimal (bytes p : Nat) : String :=
  let t := (bytes * 20 + p) / (2 * p)
  toString (t / 10) ++ "." ++ toString (t % 10)

def humanFileSize (bytes : Nat) : String :=
  if bytes = 0 then "0 B"
  else
    let i := Nat.log 1024 bytes
    oneDecimal bytes (1024 ^ i) ++ " " ++ ((sizesList.get? i).getD "undefined")

/-! ## Validator (source lines 100-148) -/

def typeViolationMsg (f : CandidateFile) : String :=
  "Unsupported file type: " ++ (if f.ftype == "" then "unknown" else f.ftype) ++
    ". Allowed: JPEG, PNG, WEBP."

def sizeViolationMsg (f : CandidateFile) : String :=
  "File is too large: " ++ humanFileSize f.size ++ ". Max allowed is " ++
    humanFileSize MAX_SIZE_BYTES ++ "."

def dimViolationMsg (w h : Nat) : String :=
  "Image is too small (" ++ toString w ++ "×" ++ toString h ++
    "). Minimum required is " ++ toString MIN_WIDTH ++ "×" ++ toString MIN_HEIGHT ++ "."

def decodeFailMsg : String :=
  "Could not read image dimensions. Please try another file."

/-- `validateBasic` (source lines 100-109): pushes a type violation, then a
size violation, onto an initially empty list. -/
def validateBasic (f : CandidateFile) : List String :=
  let errs : List String := []
  let errs := if !(ALLOWED_TYPES.contains f.ftype) then errs ++ [typeViolationMsg f] else errs
  let errs := if f.size > MAX_SIZE_BYTES then errs ++ [sizeViolationMsg f] else errs
  errs

/-- `validateDimensions` (source lines 111-130): a decode failure is itself a
violation; otherwise too-small dimensions are a violation. -/
def validateDimensions (f : CandidateFile) : List String :=
  match f.decode with
  | none => [decodeFailMsg]
  | some d =>
    if d.1 < MIN_WIDTH ∨ d.2 < MIN_HEIGHT then [dimViolationMsg d.1 d.2] else []

/-- The combined violation list `all` built by `setFileWithValidation`
(source line 135): `[...basicErrs, ...dimErrs]`. -/
def collectViolations (f : CandidateFile) : List String :=
  validateBasic f ++ validateDimensions f

/-! Independent per-check violation lists, used to state that the Validator
runs its checks independently and concatenates everything it collects. -/

def typeCheck (f : CandidateFile) : List String :=
  if !(ALLOWED_TYPES.contains f.ftype) then [typeViolationMsg f] else []

def sizeCheck (f : CandidateFile) : List String :=
  if f.size > MAX_SIZE_BYTES then [sizeViolationMsg f] else []

/-! ## Presenter: normalizeLabel / classifyPrediction (source lines 362-414) -/

/-- `normalizeLabel` (source lines 362-364): `(label || '').toLowerCase().trim()
.replace(/[^a-z]/g, '')`. -/
def normalizeLabel (label : Option String) : String :=
  String.mk ((trimChars (lowerChars ((label.getD "").toList))).filter
    (fun c => 'a' ≤ c ∧ c ≤ 'z'))

inductive BandKind where
  | negative
  | positive
  | unknown
deriving DecidableEq, Repr

structure Classification where
  kind : BandKind
  title : String
  description : String
  containerClass : String
  iconClass : String
deriving DecidableEq, Repr

/-- The `isNoTumor` token test of `classifyPrediction` (source lines 370-376). -/
def isNoTumorTok (n : String) : Bool :=
  strIncludes n "notumor" || strIncludes n "notumour" || n == "normal" ||
    n == "healthy" || strIncludes n "negative" || strIncludes n "absenceoftumor"

def negBand : Classification :=
  { kind := .negative
    title := "No tumor detected"
    description := "The model did not detect evidence of a tumor in the provided image. False negatives are possible—interpret with clinical context."
    containerClass := "border-emerald-300 bg-emerald-50 text-emerald-950"
    iconClass := "text-emerald-700" }

def posBand : Classification :=
  { kind := .positive
    title := "Tumor likely detected"
    description := "One or more tumor-related classes were predicted. This is not a diagnosis—please consult a qualified clinician."
    containerClass := "border-red-300 bg-red-50 text-red-950"
    iconClass := "text-red-700" }

def unknownBand : Classification :=
  { kind := .unknown
    title := "Prediction unavailable"
    description := "The model did not return a recognizable label. Try another image or try again later."
    containerClass := "border-slate-300 bg-slate-50 text-slate-900"
    iconClass := "text-slate-700" }

/-- `classifyPrediction` (source lines 366-414). The middle branch guards on
JS truthiness of `pred` (`if (pred)`), so an empty label falls through to the
unknown band. -/
def classifyPrediction (pred : Option String) : Classification :=
  let n := normalizeLabel pred
  if isNoTumorTok n then negBand
  else if strTruthy pred then posBand
  else unknownBand

/-! ## Response bodies and normalization (source lines 15-23, 75-78, 247-282)

A parsed JSON value; JSON numbers are carried exactly as rationals. Objects are
association lists (field lookup takes the first match). -/

inductive JValue where
  | jnull
  | jbool (b : Bool)
  | jnum (q : Rat)
  | jstr (s : String)
  | jarr (xs : List JValue)
  | jobj (fields : List (String × JValue))

/-- Optional-chaining field access `v?.k`: defined only on objects. -/
def JValue.getField (v : JValue) (k : String) : Option JValue :=
  match v with
  | .jobj fields => fields.lookup k
  | _ => none

/-- The normalized `PredictResult` shape (source lines 16-23), holding only the
recognized fields. -/
structure PredictResult where
  prediction : Option String
  confidence : Option Rat
  topK : Option (List JValue)
  version : Option String
  latencyMs : Option Rat

/-- `looksLikeHTML` (source lines 75-78). -/
def looksLikeHTML (s : String) : Bool :=
  let t := strToLower (strTrim s)
  strStartsWith t "<!doctype html" || strStartsWith t "<html" || strIncludes t "</html>" ||
    strIncludes t "<head" || strIncludes t "<body"

/-- The raw `res.data` axios hands back: a string body, or a value axios
already parsed as JSON. -/
inductive RespData where
  | text (s : String)
  | json (v : JValue)

def htmlErrMsg : String :=
  "The prediction endpoint returned HTML instead of JSON. Please verify NEXT_PUBLIC_API_URL and that /predict returns JSON."

def unexpectedFormatMsg : String :=
  "Unexpected response from server. Expected JSON but received another format. Check the /predict endpoint."

/-- The string-body handling of `uploadOnce` (source lines 250-261). `ct` is
the already-lower-cased content-type (source line 247); `parse` stands for the
ambient `JSON.parse`, with `none` modelling a parse exception (swallowed by the
source's empty catch, leaving the body as the original string). The resulting
JS value is returned as a `JValue`, a remaining plain string as `.jstr`. -/
def resolveBody (parse : String → Option JValue) (ct : String) (data : RespData) :
    Except String JValue :=
  match data with
  | .json v => .ok v
  | .text s =>
    let trimmed := strTrim s
    let isHtml := looksLikeHTML trimmed || strIncludes ct "text/html"
    let looksJson := strStartsWith trimmed "\x7b" || strStartsWith trimmed "["
    if looksJson then
      match parse trimmed with
      | some v => .ok v
      | none => .ok (.jstr s)
    else if isHtml then .error htmlErrMsg
    else .ok (.jstr s)

/-- The `normalized` record construction of `uploadOnce` (source lines
263-274): each recognized field is kept only when it has the expected type; the
prediction falls back to the body itself when the body is a bare string. -/
def extractFields (v : JValue) : PredictResult :=
  { prediction :=
      match v.getField "prediction" with
      | some (.jstr p) => some p
      | _ => match v with
             | .jstr s => some s
             | _ => none
    confidence :=
      match v.getField "confidence" with
      | some (.jnum q) => some q
      | _ => none
    topK :=
      match v.getField "topK" with
      | some (.jarr xs) => some xs
      | _ => none
    version :=
      match v.getField "version" with
      | some (.jstr s) => some s
      | _ => none
    latencyMs :=
      match v.getField "latencyMs" with
      | some (.jnum q) => some q
      | _ => none }

/-- `isJson` content-type test (source line 276), on the lower-cased
content-type. -/
def isJsonCT (ct : String) : Bool :=
  strIncludes ct "application/json" || strIncludes ct "application/problem+json"

/-- The whole response-processing tail of `uploadOnce` (source lines 247-281):
resolve the body, build the normalized record, and reject it when no truthy
prediction resolved and the content-type does not declare JSON (source lines
276-279, `!normalized.prediction && !isJson`). -/
def normalizeResponse (parse : String → Option JValue) (ct : String) (data : RespData) :
    Except String PredictResult :=
  match resolveBody parse ct data with
  | .error e => .error e
  | .ok v =>
    let normalized := extractFields v
    if !(strTruthy normalized.prediction) && !(isJsonCT ct) then .error unexpectedFormatMsg
    else .ok normalized

/-! ## Upload retry loop (source lines 190-211) -/

/-- An error escaping one `uploadOnce` attempt: an explicit cancellation
(axios cancel / AbortError), or anything else, carrying the optional
`err.response.status`, the optional server message
`err.response.data.message`, and the `err.message` text. Network/transport
failures and the `Error`s thrown by response normalization both have no
response status. -/
inductive UploadErr where
  | cancelErr
  | respErr (responseStatus : Option Nat) (serverMessage : Option String) (message : String)
deriving DecidableEq, Repr

/-- Outcome the transport produces for one `uploadOnce` attempt. -/
inductive AttemptOutcome where
  | ok (r : PredictResult)
  | err (e : UploadErr)

/-- The non-retryable test `status && status < 500` (source line 205),
including the JS truthiness of `status`. -/
def statusTruthyLt500 : Option Nat → Bool
  | none => false
  | some s => (s != 0) && decide (s < 500)

/-- Trace of one `uploadWithRetry` run: how many times `uploadOnce` was
invoked, the backoff delays waited (in order), and the final outcome
(`.error` models the rethrow of `lastError`; the payload is `none` only in the
degenerate zero-attempt case where the source would throw `null`). -/
structure RetryTrace where
  attempts : Nat
  delays : List Nat
  outcome : Except (Option UploadErr) PredictResult

/-- The `while (attempt < maxAttempts)` loop of `uploadWithRetry` (source
lines 194-209), structurally recursing on the remaining attempts. `t n` is the
outcome of the n-th `uploadOnce` call; `j n` is the jitter
`Math.floor(Math.random() * 200)` drawn after attempt `n` fails. -/
def retryGo (t : Nat → AttemptOutcome) (j : Nat → Nat) :
    Nat → Nat → List Nat → Option UploadErr → RetryTrace
  | 0, attempt, ds, lastErr => ⟨attempt, ds, .error lastErr⟩
  | fuel+1, attempt, ds, _lastErr =>
    match t (attempt + 1) with
    | .ok r => ⟨attempt + 1, ds, .ok r⟩
    | .err .cancelErr => ⟨attempt + 1, ds, .error (some .cancelErr)⟩
    | .err (.respErr st sm m) =>
      if statusTruthyLt500 st then ⟨attempt + 1, ds, .error (some (.respErr st sm m))⟩
      else
        retryGo t j fuel (attempt + 1)
          (ds ++ [min (2000 * 2 ^ (attempt + 1 - 1)) 8000 + j (attempt + 1)])
          (some (.respErr st sm m))

/-- `uploadWithRetry(f, 3)` (source lines 190-211, called with `maxAttempts = 3`
at source line 297). -/
def uploadWithRetry (t : Nat → AttemptOutcome) (j : Nat → Nat) : RetryTrace :=
  retryGo t j 3 0 [] none

/-- An attempt outcome the loop retries after: a non-cancellation error whose
status fails the `status && status < 500` test. -/
def isRetryableFailure : AttemptOutcome → Bool
  | .err (.respErr st _ _) => !(statusTruthyLt500 st)
  | _ => false

/-! ## Progress tracking (source lines 228-244) -/

/-- State written by one `onUploadProgress` tick. -/
structure ProgressOut where
  uploadedBytes : Nat
  totalBytes : Nat
  progressPct : Int
  etaSeconds : Option Rat

/-- One `onUploadProgress` tick (source lines 228-244), for an in-flight
attempt (`startTimeRef` set). `loaded`/`total` are the event's byte counts,
`elapsed` the seconds since the attempt started, `prevEta` the previous
`etaSeconds` (kept unchanged when `total` is zero, since the source guards the
ETA update with `if (startedAt && total)`). Note `setEtaSeconds(eta ?
Math.max(0, eta) : null)`: a zero ETA is falsy, so it is stored as `none`. -/
def progressTick (prevEta : Option Rat) (loaded total : Nat) (elapsed : Rat) : ProgressOut :=
  let pct : Int := if total ≠ 0 then round (((loaded : Rat) / (total : Rat)) * 100) else 0
  let eta? : Option Rat :=
    if total ≠ 0 then
      let rate := (loaded : Rat) / max elapsed (1 / 1000)
      let remaining := max ((total : Rat) - (loaded : Rat)) 0
      let eta : Option Rat := if rate > 0 then some (remaining / rate) else none
      match eta with
      | some e => if e ≠ 0 then some (max 0 e) else none
      | none => none
    else prevEta
  { uploadedBytes := loaded, totalBytes := total, progressPct := pct, etaSeconds := eta? }

/-! ## Widget state, reset, cancel and upload handlers -/

inductive Status where
  | idle
  | ready
  | uploading
  | success
  | error
deriving DecidableEq, Repr

/-- An `AbortController`: only its aborted flag matters to the model. -/
structure Controller where
  aborted : Bool
deriving DecidableEq, Repr

/-- The component's state cells plus the two refs (source lines 31-50).
`previewUrl` is an opaque object-URL handle. -/
structure UploaderState where
  file : Option CandidateFile
  previewUrl : Option Nat
  status : Status
  errors : List String
  result : Option PredictResult
  progress : Int
  uploadedBytes : Nat
  totalBytes : Nat
  etaSeconds : Option Rat
  controller : Option Controller
  startTime : Option Rat

/-- Toast notifications emitted through `sonner` (source lines 296, 300, 310,
324): neutral `toast(...)`, `toast.success(...)` or `toast.error(...)`. -/
inductive Toast where
  | neutral (title description : String)
  | success (title description : String)
  | error (title description : String)
deriving DecidableEq, Repr

/-- `resetAll` (source lines 84-97): aborts the current controller (the ref
itself is not cleared), releases the preview, and restores every state cell to
its initial value. -/
def resetAll (s : UploaderState) : UploaderState :=
  { file := none
    previewUrl := none
    status := .idle
    errors := []
    result := none
    progress := 0
    uploadedBytes := 0
    totalBytes := 0
    etaSeconds := none
    controller := s.controller.map (fun c => { c with aborted := true })
    startTime := none }

/-- A request is in flight when a controller exists and has not been aborted. -/
def inFlight (s : UploaderState) : Bool :=
  match s.controller with
  | some c => !c.aborted
  | none => false

/-- `handleCancel` (source lines 317-325): abort, drop the controller ref,
return to `ready`, clear progress, and show a neutral toast. -/
def handleCancel (s : UploaderState) : UploaderState × List Toast :=
  ({ s with controller := none
            status := .ready
            progress := 0
            uploadedBytes := 0
            etaSeconds := none },
   [Toast.neutral "Upload canceled" "You canceled the current upload."])

def startToast : Toast :=
  Toast.neutral "Starting upload" "Your image is being uploaded and processed..."

/-- The synchronous head of `handleUpload`'s try block together with the
per-attempt setup of `uploadOnce` (source lines 292-296, 217-223): enter
`uploading`, clear result/errors, install a fresh controller, reset progress,
and show the start toast. -/
def handleUploadBegin (s : UploaderState) (fsize : Nat) : UploaderState × List Toast :=
  ({ s with status := .uploading
            result := none
            errors := []
            controller := some ⟨false⟩
            startTime := some 0
            progress := 0
            uploadedBytes := 0
            totalBytes := fsize
            etaSeconds := none },
   [startToast])

/-- The message selection of `handleUpload`'s catch (source lines 304-307):
`error?.response?.data?.message || error?.message || default`, with JS
truthiness on each string. An axios cancellation error has no response and the
message text "canceled". -/
def errMessage : Option UploadErr → String
  | some .cancelErr => "canceled"
  | some (.respErr _ sm m) =>
    if strTruthy sm then sm.getD "" else if !(m == "") then m
    else "Prediction failed due to a network or server error."
  | none => "Prediction failed due to a network or server error."

/-- `handleUpload`'s catch and finally blocks (source lines 302-314): enter
`error`, replace the violation list with the single derived message, show an
error toast, and clear the controller and start-time refs. -/
def handleUploadCatch (e : Option UploadErr) (s : UploaderState) : UploaderState × List Toast :=
  let msg := errMessage e
  ({ s with status := .error
            errors := [msg]
            controller := none
            startTime := none },
   [Toast.error "Prediction failed" msg])

/-- The event sequence of a user cancellation while an attempt is in flight:
the upload begins, `handleCancel` runs on the click, and then the aborted
request's rejection (an axios cancellation, rethrown unchanged by
`uploadWithRetry`, source lines 201-203) reaches `handleUpload`'s catch as a
microtask after `handleCancel` returned. Emitted toasts are concatenated in
event order. -/
def cancelDuringUpload (s : UploaderState) (fsize : Nat) : UploaderState × List Toast :=
  let b := handleUploadBegin s fsize
  let c := handleCancel b.1
  let k := handleUploadCatch (some .cancelErr) c.1
  (k.1, b.2 ++ c.2 ++ k.2)

/-- `handleUpload` (source lines 284-315), parametrized by the transport and
jitter driving `uploadWithRetry`. Returns the final state, the toasts emitted,
and the number of `uploadOnce` invocations (0 when no file is selected: the
guard at source lines 285-290 returns before any network activity). -/
def handleUpload (t : Nat → AttemptOutcome) (j : Nat → Nat) (s : UploaderState) :
    UploaderState × List Toast × Nat :=
  match s.file with
  | none =>
    ({ s with errors := ["Please select an image before uploading."], status := .error }, [], 0)
  | some f =>
    let s1 := (handleUploadBegin s f.size).1
    let trace := uploadWithRetry t j
    match trace.outcome with
    | .ok r =>
      ({ s1 with status := .success, result := some r, controller := none, startTime := none },
       [startToast, Toast.success "Prediction complete" "The model returned a result successfully."],
       trace.attempts)
    | .error e =>
      ((handleUploadCatch e s1).1, startToast :: (handleUploadCatch e s1).2, trace.attempts)

/-- The spec's retry condition, stated in its own words: an attempt failed
with a network/transport error (no response status) or an HTTP status
≥ 500. -/
def claimRetryable : AttemptOutcome → Prop
  | .err (.respErr none _ _) => True
  | .err (.respErr (some st) _ _) => 500 ≤ st
  | _ => False

/-! ## Concrete inputs used by witnesses -/

def wRes : PredictResult := ⟨some "glioma", none, none, none, none⟩

/-- A transport that returns 503 twice and then succeeds. -/
def wT503 : Nat → AttemptOutcome :=
  fun n => if n ≤ 2 then .err (.respErr (some 503) none "Request failed with status code 503")
           else .ok wRes

def wJ0 : Nat → Nat := fun _ => 0

def wFileBadType : CandidateFile := ⟨"text/plain", 100, some (512, 512)⟩

def wIdleState : UploaderState :=
  ⟨none, none, .idle, [], none, 0, 0, 0, none, none, none⟩

/-! ## One-step unfoldings of the retry loop (definitional) -/

theorem uploadWithRetry_unfold (t : Nat → AttemptOutcome) (j : Nat → Nat) :
    uploadWithRetry t j =
      (match t 1 with
       | .ok r => ⟨1, [], .ok r⟩
       | .err .cancelErr => ⟨1, [], .error (some .cancelErr)⟩
       | .err (.respErr st sm m) =>
         if statusTruthyLt500 st then ⟨1, [], .error (some (.respErr st sm m))⟩
         else retryGo t j 2 1 [min (2000 * 2 ^ 0) 8000 + j 1] (some (.respErr st sm m))) := rfl

theorem retryGo2_unfold (t : Nat → AttemptOutcome) (j : Nat → Nat)
    (ds : List Nat) (le : Option UploadErr) :
    retryGo t j 2 1 ds le =
      (match t 2 with
       | .ok r => ⟨2, ds, .ok r⟩
       | .err .cancelErr => ⟨2, ds, .error (some .cancelErr)⟩
       | .err (.respErr st sm m) =>
         if statusTruthyLt500 st then ⟨2, ds, .error (some (.respErr st sm m))⟩
         else retryGo t j 1 2 (ds ++ [min (2000 * 2 ^ 1) 8000 + j 2]) (some (.respErr st sm m))) := rfl

theorem retryGo1_unfold (t : Nat → AttemptOutcome) (j : Nat → Nat)
    (ds : List Nat) (le : Option UploadErr) :
    retryGo t j 1 2 ds le =
      (match t 3 with
       | .ok r => ⟨3, ds, .ok r⟩
       | .err .cancelErr => ⟨3, ds, .error (some .cancelErr)⟩
       | .err (.respErr st sm m) =>
         if statusTruthyLt500 st then ⟨3, ds, .error (some (.respErr st sm m))⟩
         else ⟨3, ds ++ [min (2000 * 2 ^ 2) 8000 + j 3], .error (some (.respErr st sm m))⟩) := rfl

/-! ## Claim C9: reset idempotence -/

/-- Claim C9: reset is idempotent — from any widget state, `resetAll` yields
Widget State `idle` with no selected file, no preview resource and no
in-flight request, and applying `resetAll` a second time changes nothing. -/
theorem resetAll_idempotent (s : UploaderState) :
    resetAll (resetAll s) = resetAll s ∧
    (resetAll s).status = .idle ∧
    (resetAll s).file = none ∧
    (resetAll s).previewUrl = none ∧
    inFlight (resetAll s) = false := by
  refine ⟨?_, rfl, rfl, rfl, ?_⟩ <;> cases hc : s.controller <;> simp [resetAll, inFlight, hc]

/-! ## Claim C10: upload with no accepted file -/

/-- Claim C10: triggering the upload action with no accepted file present
performs no network request (zero `uploadOnce` invocations), sets Widget State
to `error`, replaces the violation list with exactly the single
select-an-image message, and leaves the previous result untouched. -/
theorem handleUpload_no_file (t : Nat → AttemptOutcome) (j : Nat → Nat)
    (s : UploaderState) (h : s.file = none) :
    handleUpload t j s =
      ({ s with errors := ["Please select an image before uploading."], status := .error },
       [], 0) ∧
    (handleUpload t j s).2.2 = 0 ∧
    (handleUpload t j s).1.status = .error ∧
    (handleUpload t j s).1.errors = ["Please select an image before uploading."] ∧
    (handleUpload t j s).1.result = s.result := by
  have he : handleUpload t j s =
      ({ s with errors := ["Please select an image before uploading."], status := .error },
       [], 0) := by
    rw [handleUpload, h]
  exact ⟨he, by rw [he], by rw [he], by rw [he], by rw [he]⟩

/-- Witness for C10 at a concrete idle state. -/
theorem handleUpload_no_file_witness :
    handleUpload (fun _ => .err .cancelErr) wJ0 wIdleState =
      ({ wIdleState with
          errors := ["Please select an image before uploading."], status := .error },
       [], 0) :=
  (handleUpload_no_file (fun _ => .err .cancelErr) wJ0 wIdleState rfl).1

/-! ## Claim C1: cancellation mid-upload -/

/-- Claim C1 (code bug demonstration): when the abort signal fires while an
attempt is in flight, `handleCancel` first sets Widget State to `ready` and
shows the neutral toast, but the rejected request then reaches `handleUpload`'s
catch block, which unconditionally sets Widget State to `error` and shows an
error toast with the cancellation message — contradicting the claim that a
canceled upload ends `ready` with no error-style toast. -/
theorem cancel_midflight_ends_in_error (s : UploaderState) (fsize : Nat) :
    (cancelDuringUpload s fsize).1.status = .error ∧
    Toast.error "Prediction failed" "canceled" ∈ (cancelDuringUpload s fsize).2 ∧
    Toast.neutral "Upload canceled" "You canceled the current upload." ∈
      (cancelDuringUpload s fsize).2 := by
  have ht : (cancelDuringUpload s fsize).2 =
      [startToast, Toast.neutral "Upload canceled" "You canceled the current upload.",
       Toast.error "Prediction failed" "canceled"] := rfl
  refine ⟨rfl, ?_, ?_⟩
  · rw [ht]; decide
  · rw [ht]; decide

/-! ## Claim C4: validator collects all violations independently -/

/-- Claim C4: the Validator runs the type, size and dimension checks
independently and returns the concatenation of everything they collect (the
empty list meaning acceptance); in particular any file whose declared type is
outside the allow-list yields a non-empty list containing the type-mismatch
message, regardless of its size or dimensions. -/
theorem validator_spec (f : CandidateFile) :
    collectViolations f = typeCheck f ++ sizeCheck f ++ validateDimensions f ∧
    (collectViolations f = [] ↔
      typeCheck f = [] ∧ sizeCheck f = [] ∧ validateDimensions f = []) ∧
    (ALLOWED_TYPES.contains f.ftype = false →
      collectViolations f ≠ [] ∧ typeViolationMsg f ∈ collectViolations f) := by
  have hb : validateBasic f = typeCheck f ++ sizeCheck f := by
    unfold validateBasic typeCheck sizeCheck
    by_cases h1 : ALLOWED_TYPES.contains f.ftype <;>
      by_cases h2 : f.size > MAX_SIZE_BYTES <;> simp [h1, h2]
  have hdecomp : collectViolations f = typeCheck f ++ sizeCheck f ++ validateDimensions f := by
    rw [collectViolations, hb]
  refine ⟨hdecomp, ?_, ?_⟩
  · rw [hdecomp]
    simp [List.append_eq_nil, and_assoc]
  · intro h
    have h' : f.ftype ∉ ALLOWED_TYPES := by simpa using h
    have ht : typeCheck f = [typeViolationMsg f] := by simp [typeCheck, h']
    rw [hdecomp, ht]
    simp

/-- Witness for C4 at a concrete wrong-typed file. -/
theorem validator_spec_witness :
    collectViolations wFileBadType ≠ [] ∧
    typeViolationMsg wFileBadType ∈ collectViolations wFileBadType :=
  (validator_spec wFileBadType).2.2 (by decide)

/-! ## Claim C8: label normalization and classification bands -/

/-- Claim C8: `classifyPrediction` lower-cases the label and strips
non-letters, so every casing/spacing variant of "No Tumor" (anything whose
normalization is or contains the recognized no-tumor tokens) classifies as the
negative band, a present (non-empty) label outside the negative token set —
e.g. "glioma" — classifies as the positive band, and an absent label
classifies as the unknown band. -/
theorem classifyPrediction_spec :
    (∀ p : String, normalizeLabel (some p) = "notumor" →
      (classifyPrediction (some p)).kind = .negative) ∧
    (∀ p : String, isNoTumorTok (normalizeLabel (some p)) = true →
      (classifyPrediction (some p)).kind = .negative) ∧
    (classifyPrediction (some "No Tumor")).kind = .negative ∧
    (classifyPrediction (some "  nO TuMoR ")).kind = .negative ∧
    (classifyPrediction (some "glioma")).kind = .positive ∧
    (∀ p : String, p ≠ "" → isNoTumorTok (normalizeLabel (some p)) = false →
      (classifyPrediction (some p)).kind = .positive) ∧
    (classifyPrediction none).kind = .unknown := by
  refine ⟨?_, ?_, by decide, by decide, by decide, ?_, by decide⟩
  · intro p h
    have hn : isNoTumorTok (normalizeLabel (some p)) = true := by rw [h]; decide
    simp [classifyPrediction, hn, negBand]
  · intro p h
    simp [classifyPrediction, h, negBand]
  · intro p hne h
    have hp : (p == "") = false := beq_eq_false_iff_ne.mpr hne
    simp [classifyPrediction, h, strTruthy, hp, posBand]

/-- Witness for C8 at the concrete label "glioma". -/
theorem classifyPrediction_spec_witness :
    (classifyPrediction (some "glioma")).kind = .positive :=
  classifyPrediction_spec.2.2.2.2.2.1 "glioma" (by decide) (by decide)

/-! ## Claim C5: HTML response bodies fail with a configuration message -/

/-- Claim C5: a string response body whose trimmed content does not start with
a brace or bracket and that either matches the HTML document markers or whose
content-type declares HTML makes the upload fail with the error message naming
the endpoint configuration (`NEXT_PUBLIC_API_URL`, `/predict`), never a
success carrying a silently-empty prediction. -/
theorem html_response_spec (parse : String → Option JValue) (ct s : String)
    (hjson1 : strStartsWith (strTrim s) "\x7b" = false)
    (hjson2 : strStartsWith (strTrim s) "[" = false)
    (hhtml : looksLikeHTML (strTrim s) = true ∨ strIncludes ct "text/html" = true) :
    normalizeResponse parse ct (.text s) = .error htmlErrMsg ∧
    strIncludes htmlErrMsg "NEXT_PUBLIC_API_URL" = true ∧
    strIncludes htmlErrMsg "/predict" = true ∧
    ∀ r, normalizeResponse parse ct (.text s) ≠ .ok r := by
  have hres : resolveBody parse ct (.text s) = .error htmlErrMsg := by
    rcases hhtml with h | h <;> simp [resolveBody, hjson1, hjson2, h]
  refine ⟨?_, by decide, by decide, ?_⟩
  · simp [normalizeResponse, hres]
  · intro r
    simp [normalizeResponse, hres]

/-- Witness for C5: a literal HTML document body served as `text/html`. -/
theorem html_response_spec_witness :
    normalizeResponse (fun _ => none) "text/html"
      (.text "<!DOCTYPE html><html><head></head><body>Error</body></html>") =
      .error htmlErrMsg :=
  (html_response_spec (fun _ => none) "text/html"
    "<!DOCTYPE html><html><head></head><body>Error</body></html>"
    (by decide) (by decide) (Or.inl (by decide))).1

/-! ## Claim C6: normalized result shape / unexpected-format failure -/

/-- Claim C6: once the body resolves, when no usable (non-empty) prediction
string was obtained — from a string-valued `prediction` field or from the body
being a bare string — and the content-type does not declare JSON, `uploadOnce`
fails with the unexpected-server-response-format error; otherwise it succeeds
with the normalized result populated from the recognized fields only. -/
theorem normalize_shape_spec (parse : String → Option JValue) (ct : String)
    (data : RespData) (v : JValue)
    (hres : resolveBody parse ct data = .ok v) :
    (strTruthy (extractFields v).prediction = false ∧ isJsonCT ct = false →
      normalizeResponse parse ct data = .error unexpectedFormatMsg) ∧
    (strTruthy (extractFields v).prediction = true ∨ isJsonCT ct = true →
      normalizeResponse parse ct data = .ok (extractFields v)) := by
  constructor
  · rintro ⟨h1, h2⟩
    simp [normalizeResponse, hres, h1, h2]
  · rintro (h | h) <;> simp [normalizeResponse, hres, h]

/-- Witness for C6: an empty bare-string body with a non-JSON content-type is
rejected as an unexpected format. -/
theorem normalize_shape_spec_witness :
    normalizeResponse (fun _ => none) "text/plain" (.text "") =
      .error unexpectedFormatMsg :=
  (normalize_shape_spec (fun _ => none) "text/plain" (.text "") (.jstr "") rfl).1
    ⟨rfl, rfl⟩

/-! ## Claim C7: progress percentage and ETA -/

/-- Claim C7 counterexample: at a progress event with `bytesSent = totalBytes
= 100` after 1 s, the rate is positive, so the claim requires the ETA to be
defined (and equal to 0), but the code's `eta ? Math.max(0, eta) : null`
treats the zero ETA as falsy and stores `undefined`. -/
theorem progress_eta_counterexample :
    (progressTick none 100 100 1).etaSeconds = none ∧
    0 < ((100 : Nat) : Rat) / max 1 (1 / 1000) ∧
    (progressTick none 100 100 1).etaSeconds ≠
      some ((((100 : Nat) : Rat) - ((100 : Nat) : Rat)) /
        (((100 : Nat) : Rat) / max 1 (1 / 1000))) := by
  have hmax : max (1 : Rat) (1 / 1000) = 1 := max_eq_left (by norm_num)
  have h1 : (progressTick none 100 100 1).etaSeconds = none := by
    simp [progressTick, hmax]
  refine ⟨h1, ?_, ?_⟩
  · rw [hmax]; norm_num
  · rw [h1]; simp

/-- Claim C7 as amended: on a progress event with positive total and
`bytesSent ≤ totalBytes`, the percentage is recomputed from scratch as
`round(100 * bytesSent / totalBytes)` and lies in [0, 100]; the ETA equals
`(totalBytes - bytesSent) / rate` with `rate = bytesSent / max(elapsed, 1ms)`
whenever the rate is positive AND bytes remain, and is undefined when the rate
is zero or no bytes remain (the code stores a zero ETA as undefined). -/
theorem progress_tick_spec (prevEta : Option Rat) (loaded total : Nat) (elapsed : Rat)
    (htotal : 0 < total) (hle : loaded ≤ total) :
    (progressTick prevEta loaded total elapsed).uploadedBytes = loaded ∧
    (progressTick prevEta loaded total elapsed).totalBytes = total ∧
    (progressTick prevEta loaded total elapsed).progressPct =
      round (((loaded : Rat) / (total : Rat)) * 100) ∧
    0 ≤ (progressTick prevEta loaded total elapsed).progressPct ∧
    (progressTick prevEta loaded total elapsed).progressPct ≤ 100 ∧
    (0 < loaded → loaded < total →
      (progressTick prevEta loaded total elapsed).etaSeconds =
        some (((total : Rat) - (loaded : Rat)) /
          ((loaded : Rat) / max elapsed (1 / 1000)))) ∧
    (loaded = 0 ∨ loaded = total →
      (progressTick prevEta loaded total elapsed).etaSeconds = none) := by
  have hne : total ≠ 0 := htotal.ne'
  have hpct : (progressTick prevEta loaded total elapsed).progressPct =
      round (((loaded : Rat) / (total : Rat)) * 100) := by
    simp [progressTick, hne]
  have hq0 : (0 : Rat) ≤ (loaded : Rat) / (total : Rat) :=
    div_nonneg (Nat.cast_nonneg _) (Nat.cast_nonneg _)
  have hq1 : (loaded : Rat) / (total : Rat) ≤ 1 := by
    rw [div_le_one (by exact_mod_cast htotal)]
    exact_mod_cast hle
  have hmaxpos : (0 : Rat) < max elapsed (1 / 1000) :=
    lt_of_lt_of_le (by norm_num) (le_max_right _ _)
  refine ⟨rfl, rfl, hpct, ?_, ?_, ?_, ?_⟩
  · rw [hpct, round_eq]
    refine Int.le_floor.mpr ?_
    push_cast
    nlinarith
  · rw [hpct, round_eq]
    have hlt101 : ⌊((loaded : Rat) / (total : Rat)) * 100 + 1 / 2⌋ < 101 := by
      refine Int.floor_lt.mpr ?_
      push_cast
      nlinarith
    omega
  · intro hl0 hlt
    have hrate : (0 : Rat) < (loaded : Rat) / max elapsed (1 / 1000) :=
      div_pos (by exact_mod_cast hl0) hmaxpos
    have hrem : (0 : Rat) < (total : Rat) - (loaded : Rat) := by
      rw [sub_pos]; exact_mod_cast hlt
    have hmaxrem : max ((total : Rat) - (loaded : Rat)) 0 = (total : Rat) - (loaded : Rat) :=
      max_eq_left hrem.le
    have hepos : (0 : Rat) < ((total : Rat) - (loaded : Rat)) /
        ((loaded : Rat) / max elapsed (1 / 1000)) := div_pos hrem hrate
    simp [progressTick, hne, hl0, hrate, hmaxrem, hepos.ne', max_eq_right hepos.le]
    exact ⟨⟨hrem.ne', hl0.ne', ne_of_gt (lt_of_lt_of_le (by norm_num) (le_max_right _ _))⟩,
      div_nonneg hrem.le
        (div_nonneg (Nat.cast_nonneg _) (le_trans (by norm_num) (le_max_right _ _)))⟩
  · rintro (rfl | rfl)
    · simp [progressTick, hne]
    · simp [progressTick, hne, htotal]

/-- Witness for the amended C7 at a concrete half-done progress event. -/
theorem progress_tick_spec_witness :
    (progressTick none 50 100 1).progressPct =
      round ((((50 : Nat) : Rat) / ((100 : Nat) : Rat)) * 100) ∧
    (progressTick none 50 100 1).etaSeconds =
      some ((((100 : Nat) : Rat) - ((50 : Nat) : Rat)) /
        (((50 : Nat) : Rat) / max 1 (1 / 1000))) :=
  ⟨(progress_tick_spec none 50 100 1 (by decide) (by decide)).2.2.1,
   (progress_tick_spec none 50 100 1 (by decide) (by decide)).2.2.2.2.2.1
     (by decide) (by decide)⟩

/-- Under real HTTP statuses (≥ 100), the spec's retry condition coincides
with the code's `status && status < 500` test being false. -/
theorem retryable_iff (t : Nat → AttemptOutcome)
    (hst : ∀ n st sm m, t n = .err (.respErr (some st) sm m) → 100 ≤ st) (n : Nat) :
    claimRetryable (t n) ↔ isRetryableFailure (t n) = true := by
  rcases hn : t n with r | e
  · simp [claimRetryable, isRetryableFailure]
  · rcases e with _ | ⟨st, sm, m⟩
    · simp [claimRetryable, isRetryableFailure]
    · rcases st with _ | v
      · simp [claimRetryable, isRetryableFailure, statusTruthyLt500]
      · have h100 := hst n v sm m hn
        simp [claimRetryable, isRetryableFailure, statusTruthyLt500]
        omega

/-! ## Claim C2: retry policy -/

/-- Claim C2: `uploadWithRetry` invokes `uploadOnce` at most 3 times; attempt
k+1 happens exactly when all of the first k attempts failed retryably (network
error or status ≥ 500, for real HTTP statuses ≥ 100); a transport failing 503
twice then succeeding yields success after exactly 3 attempts; and a
first-attempt 400 surfaces as a failure with no second attempt. -/
theorem uploadWithRetry_spec (t : Nat → AttemptOutcome) (j : Nat → Nat)
    (hst : ∀ n st sm m, t n = .err (.respErr (some st) sm m) → 100 ≤ st) :
    (1 ≤ (uploadWithRetry t j).attempts ∧ (uploadWithRetry t j).attempts ≤ 3) ∧
    (∀ k, 1 ≤ k → k ≤ 2 →
      (k + 1 ≤ (uploadWithRetry t j).attempts ↔
        ∀ i, 1 ≤ i → i ≤ k → claimRetryable (t i))) ∧
    (∀ r sm1 m1 sm2 m2,
      t 1 = .err (.respErr (some 503) sm1 m1) →
      t 2 = .err (.respErr (some 503) sm2 m2) →
      t 3 = .ok r →
      (uploadWithRetry t j).outcome = .ok r ∧ (uploadWithRetry t j).attempts = 3) ∧
    (∀ sm m, t 1 = .err (.respErr (some 400) sm m) →
      (uploadWithRetry t j).attempts = 1 ∧
      (uploadWithRetry t j).outcome = .error (some (.respErr (some 400) sm m))) := by
  have hconv := retryable_iff t hst
  have main : (1 ≤ (uploadWithRetry t j).attempts ∧ (uploadWithRetry t j).attempts ≤ 3) ∧
      (∀ k, 1 ≤ k → k ≤ 2 →
        (k + 1 ≤ (uploadWithRetry t j).attempts ↔
          ∀ i, 1 ≤ i → i ≤ k → isRetryableFailure (t i) = true)) := by
    rcases o1 : t 1 with r1 | e1
    · have ha : (uploadWithRetry t j).attempts = 1 := by
        rw [uploadWithRetry_unfold t j, o1]
      refine ⟨⟨by omega, by omega⟩, ?_⟩
      intro k hk1 hk2
      rw [ha]
      constructor
      · intro h; exact absurd h (by omega)
      · intro hall
        have hbad := hall 1 le_rfl hk1
        rw [o1] at hbad
        simp [isRetryableFailure] at hbad
    · rcases e1 with _ | ⟨st1, sm1, m1⟩
      · have ha : (uploadWithRetry t j).attempts = 1 := by
          rw [uploadWithRetry_unfold t j, o1]
        refine ⟨⟨by omega, by omega⟩, ?_⟩
        intro k hk1 hk2
        rw [ha]
        constructor
        · intro h; exact absurd h (by omega)
        · intro hall
          have hbad := hall 1 le_rfl hk1
          rw [o1] at hbad
          simp [isRetryableFailure] at hbad
      · rcases Bool.eq_false_or_eq_true (statusTruthyLt500 st1) with hb1 | hb1
        · -- first attempt failed non-retryably (truthy status < 500): break
          have ha : (uploadWithRetry t j).attempts = 1 := by
            rw [uploadWithRetry_unfold t j, o1]; simp [hb1]
          refine ⟨⟨by omega, by omega⟩, ?_⟩
          intro k hk1 hk2
          rw [ha]
          constructor
          · intro h; exact absurd h (by omega)
          · intro hall
            have hbad := hall 1 le_rfl hk1
            rw [o1] at hbad
            simp [isRetryableFailure, hb1] at hbad
        · -- first attempt failed retryably
          have hr1 : uploadWithRetry t j =
              retryGo t j 2 1 [min (2000 * 2 ^ 0) 8000 + j 1]
                (some (.respErr st1 sm1 m1)) := by
            rw [uploadWithRetry_unfold t j, o1]; simp [hb1]
          rcases o2 : t 2 with r2 | e2
          · have ha : (uploadWithRetry t j).attempts = 2 := by
              rw [hr1, retryGo2_unfold, o2]
            refine ⟨⟨by omega, by omega⟩, ?_⟩
            intro k hk1 hk2
            rw [ha]
            have hkk : k = 1 ∨ k = 2 := by omega
            rcases hkk with rfl | rfl
            · constructor
              · intro _ i hi1 hik
                have hi : i = 1 := by omega
                subst hi
                rw [o1]; simp [isRetryableFailure, hb1]
              · intro _; omega
            · constructor
              · intro h; exact absurd h (by omega)
              · intro hall
                have hbad := hall 2 (by omega) le_rfl
                rw [o2] at hbad
                simp [isRetryableFailure] at hbad
          · rcases e2 with _ | ⟨st2, sm2, m2⟩
            · have ha : (uploadWithRetry t j).attempts = 2 := by
                rw [hr1, retryGo2_unfold, o2]
              refine ⟨⟨by omega, by omega⟩, ?_⟩
              intro k hk1 hk2
              rw [ha]
              have hkk : k = 1 ∨ k = 2 := by omega
              rcases hkk with rfl | rfl
              · constructor
                · intro _ i hi1 hik
                  have hi : i = 1 := by omega
                  subst hi
                  rw [o1]; simp [isRetryableFailure, hb1]
                · intro _; omega
              · constructor
                · intro h; exact absurd h (by omega)
                · intro hall
                  have hbad := hall 2 (by omega) le_rfl
                  rw [o2] at hbad
                  simp [isRetryableFailure] at hbad
            · rcases Bool.eq_false_or_eq_true (statusTruthyLt500 st2) with hb2 | hb2
              · -- second attempt failed non-retryably: break
                have ha : (uploadWithRetry t j).attempts = 2 := by
                  rw [hr1, retryGo2_unfold, o2]; simp [hb2]
                refine ⟨⟨by omega, by omega⟩, ?_⟩
                intro k hk1 hk2
                rw [ha]
                have hkk : k = 1 ∨ k = 2 := by omega
                rcases hkk with rfl | rfl
                · constructor
                  · intro _ i hi1 hik
                    have hi : i = 1 := by omega
                    subst hi
                    rw [o1]; simp [isRetryableFailure, hb1]
                  · intro _; omega
                · constructor
                  · intro h; exact absurd h (by omega)
                  · intro hall
                    have hbad := hall 2 (by omega) le_rfl
                    rw [o2] at hbad
                    simp [isRetryableFailure, hb2] at hbad
              · -- second attempt also failed retryably: third attempt runs
                have hr2 : uploadWithRetry t j =
                    retryGo t j 1 2
                      ([min (2000 * 2 ^ 0) 8000 + j 1] ++ [min (2000 * 2 ^ 1) 8000 + j 2])
                      (some (.respErr st2 sm2 m2)) := by
                  rw [hr1, retryGo2_unfold, o2]; simp [hb2]
                have ha : (uploadWithRetry t j).attempts = 3 := by
                  rw [hr2]
                  rcases o3 : t 3 with r3 | e3
                  · rw [retryGo1_unfold, o3]
                  · rcases e3 with _ | ⟨st3, sm3, m3⟩
                    · rw [retryGo1_unfold, o3]
                    · rcases Bool.eq_false_or_eq_true (statusTruthyLt500 st3) with hb3 | hb3
                      · rw [retryGo1_unfold, o3]; simp [hb3]
                      · rw [retryGo1_unfold, o3]; simp [hb3]
                refine ⟨⟨by omega, by omega⟩, ?_⟩
                intro k hk1 hk2
                rw [ha]
                constructor
                · intro _ i hi1 hik
                  have hi : i = 1 ∨ i = 2 := by omega
                  rcases hi with rfl | rfl
                  · rw [o1]; simp [isRetryableFailure, hb1]
                  · rw [o2]; simp [isRetryableFailure, hb2]
                · intro _; omega
  refine ⟨main.1, ?_, ?_, ?_⟩
  · intro k hk1 hk2
    refine (main.2 k hk1 hk2).trans ⟨fun h i h1 h2 => (hconv i).mpr (h i h1 h2),
      fun h i h1 h2 => (hconv i).mp (h i h1 h2)⟩
  · intro r sm1 m1 sm2 m2 h1 h2 h3
    have hb : statusTruthyLt500 (some 503) = false := by decide
    have e1 : uploadWithRetry t j =
        retryGo t j 2 1 [min (2000 * 2 ^ 0) 8000 + j 1]
          (some (.respErr (some 503) sm1 m1)) := by
      rw [uploadWithRetry_unfold t j, h1]; simp [hb]
    have e2 : retryGo t j 2 1 [min (2000 * 2 ^ 0) 8000 + j 1]
          (some (.respErr (some 503) sm1 m1)) =
        retryGo t j 1 2
          ([min (2000 * 2 ^ 0) 8000 + j 1] ++ [min (2000 * 2 ^ 1) 8000 + j 2])
          (some (.respErr (some 503) sm2 m2)) := by
      rw [retryGo2_unfold, h2]; simp [hb]
    have e3 : retryGo t j 1 2
          ([min (2000 * 2 ^ 0) 8000 + j 1] ++ [min (2000 * 2 ^ 1) 8000 + j 2])
          (some (.respErr (some 503) sm2 m2)) =
        ⟨3, [min (2000 * 2 ^ 0) 8000 + j 1] ++ [min (2000 * 2 ^ 1) 8000 + j 2],
         .ok r⟩ := by
      rw [retryGo1_unfold, h3]
    rw [e1, e2, e3]
    exact ⟨rfl, rfl⟩
  · intro sm m h1
    have hb : statusTruthyLt500 (some 400) = true := by decide
    have e1 : uploadWithRetry t j = ⟨1, [], .error (some (.respErr (some 400) sm m))⟩ := by
      rw [uploadWithRetry_unfold t j, h1]; simp [hb]
    rw [e1]
    exact ⟨rfl, rfl⟩

/-- Witness for C2: the 503-twice-then-success transport succeeds after
exactly 3 attempts. -/
theorem uploadWithRetry_spec_witness :
    (uploadWithRetry wT503 wJ0).outcome = .ok wRes ∧
    (uploadWithRetry wT503 wJ0).attempts = 3 :=
  (uploadWithRetry_spec wT503 wJ0 (by
    intro n st sm m h
    unfold wT503 at h
    split at h
    · simp at h
      omega
    · simp at h)).2.2.1 wRes none "Request failed with status code 503"
      none "Request failed with status code 503" rfl rfl rfl

/-! ## Claim C3: backoff delays -/

/-- Claim C3: no delay is waited when the first attempt needs no retry, and
the delay recorded before retry k+1 (after the k-th attempt failed retryably)
equals `min(2000 * 2^(k-1), 8000)` plus a jitter in [0, 200): 2000 ms after
the first failure, 4000 ms after the second, and the base is capped at
8000 ms from the third failure on. -/
theorem backoff_spec (t : Nat → AttemptOutcome) (j : Nat → Nat) (hj : ∀ n, j n < 200) :
    (∀ r, t 1 = .ok r → (uploadWithRetry t j).delays = []) ∧
    (∀ k, 1 ≤ k → k + 1 ≤ (uploadWithRetry t j).attempts →
      (uploadWithRetry t j).delays[k - 1]? =
        some (min (2000 * 2 ^ (k - 1)) 8000 + j k) ∧ j k < 200) ∧
    min (2000 * 2 ^ 0) 8000 = 2000 ∧
    min (2000 * 2 ^ 1) 8000 = 4000 ∧
    (∀ k, 3 ≤ k → min (2000 * 2 ^ (k - 1)) 8000 = 8000) := by
  refine ⟨?_, ?_, by norm_num, by norm_num, ?_⟩
  · intro r h1
    rw [uploadWithRetry_unfold t j, h1]
  · intro k hk1 hA
    rcases o1 : t 1 with r1 | e1
    · have ha : (uploadWithRetry t j).attempts = 1 := by
        rw [uploadWithRetry_unfold t j, o1]
      rw [ha] at hA
      exact absurd hA (by omega)
    · rcases e1 with _ | ⟨st1, sm1, m1⟩
      · have ha : (uploadWithRetry t j).attempts = 1 := by
          rw [uploadWithRetry_unfold t j, o1]
        rw [ha] at hA
        exact absurd hA (by omega)
      · rcases Bool.eq_false_or_eq_true (statusTruthyLt500 st1) with hb1 | hb1
        · have ha : (uploadWithRetry t j).attempts = 1 := by
            rw [uploadWithRetry_unfold t j, o1]; simp [hb1]
          rw [ha] at hA
          exact absurd hA (by omega)
        · have hr1 : uploadWithRetry t j =
              retryGo t j 2 1 [min (2000 * 2 ^ 0) 8000 + j 1]
                (some (.respErr st1 sm1 m1)) := by
            rw [uploadWithRetry_unfold t j, o1]; simp [hb1]
          rcases o2 : t 2 with r2 | e2
          · have ha : (uploadWithRetry t j).attempts = 2 := by
              rw [hr1, retryGo2_unfold, o2]
            have hd : (uploadWithRetry t j).delays = [min (2000 * 2 ^ 0) 8000 + j 1] := by
              rw [hr1, retryGo2_unfold, o2]
            have hk : k = 1 := by rw [ha] at hA; omega
            subst hk
            rw [hd]
            exact ⟨by simp, hj 1⟩
          · rcases e2 with _ | ⟨st2, sm2, m2⟩
            · have ha : (uploadWithRetry t j).attempts = 2 := by
                rw [hr1, retryGo2_unfold, o2]
              have hd : (uploadWithRetry t j).delays = [min (2000 * 2 ^ 0) 8000 + j 1] := by
                rw [hr1, retryGo2_unfold, o2]
              have hk : k = 1 := by rw [ha] at hA; omega
              subst hk
              rw [hd]
              exact ⟨by simp, hj 1⟩
            · rcases Bool.eq_false_or_eq_true (statusTruthyLt500 st2) with hb2 | hb2
              · have ha : (uploadWithRetry t j).attempts = 2 := by
                  rw [hr1, retryGo2_unfold, o2]; simp [hb2]
                have hd : (uploadWithRetry t j).delays =
                    [min (2000 * 2 ^ 0) 8000 + j 1] := by
                  rw [hr1, retryGo2_unfold, o2]; simp [hb2]
                have hk : k = 1 := by rw [ha] at hA; omega
                subst hk
                rw [hd]
                exact ⟨by simp, hj 1⟩
              · have hr2 : uploadWithRetry t j =
                    retryGo t j 1 2
                      ([min (2000 * 2 ^ 0) 8000 + j 1] ++ [min (2000 * 2 ^ 1) 8000 + j 2])
                      (some (.respErr st2 sm2 m2)) := by
                  rw [hr1, retryGo2_unfold, o2]; simp [hb2]
                have ha : (uploadWithRetry t j).attempts = 3 := by
                  rw [hr2]
                  rcases o3 : t 3 with r3 | e3
                  · rw [retryGo1_unfold, o3]
                  · rcases e3 with _ | ⟨st3, sm3, m3⟩
                    · rw [retryGo1_unfold, o3]
                    · rcases Bool.eq_false_or_eq_true (statusTruthyLt500 st3) with hb3 | hb3
                      · rw [retryGo1_unfold, o3]; simp [hb3]
                      · rw [retryGo1_unfold, o3]; simp [hb3]
                have hd : ∃ tail, (uploadWithRetry t j).delays =
                    [min (2000 * 2 ^ 0) 8000 + j 1, min (2000 * 2 ^ 1) 8000 + j 2] ++ tail := by
                  rw [hr2]
                  rcases o3 : t 3 with r3 | e3
                  · refine ⟨[], ?_⟩
                    rw [retryGo1_unfold, o3]; simp
                  · rcases e3 with _ | ⟨st3, sm3, m3⟩
                    · refine ⟨[], ?_⟩
                      rw [retryGo1_unfold, o3]; simp
                    · rcases Bool.eq_false_or_eq_true (statusTruthyLt500 st3) with hb3 | hb3
                      · refine ⟨[], ?_⟩
                        rw [retryGo1_unfold, o3]; simp [hb3]
                      · refine ⟨[min (2000 * 2 ^ 2) 8000 + j 3], ?_⟩
                        rw [retryGo1_unfold, o3]; simp [hb3]
                obtain ⟨tail, hd⟩ := hd
                have hk : k = 1 ∨ k = 2 := by rw [ha] at hA; omega
                rcases hk with rfl | rfl
                · rw [hd]
                  exact ⟨by simp, hj 1⟩
                · rw [hd]
                  exact ⟨by simp, hj 2⟩
  · intro k hk3
    have h4 : (4 : Nat) ≤ 2 ^ (k - 1) := by
      calc (4 : Nat) = 2 ^ 2 := by norm_num
        _ ≤ 2 ^ (k - 1) := Nat.pow_le_pow_right (by norm_num) (by omega)
    have h8 : (8000 : Nat) ≤ 2000 * 2 ^ (k - 1) := by
      calc (8000 : Nat) = 2000 * 4 := by norm_num
        _ ≤ 2000 * 2 ^ (k - 1) := Nat.mul_le_mul_left 2000 h4
    exact min_eq_right h8

/-- Witness for C3: with the 503-twice transport and zero jitter, the delay
before the second attempt is recorded as 2000 ms. -/
theorem backoff_spec_witness :
    (uploadWithRetry wT503 wJ0).delays[0]? =
      some (min (2000 * 2 ^ 0) 8000 + wJ0 1) ∧ wJ0 1 < 200 :=
  (backoff_spec wT503 wJ0 (fun _ => by simp [wJ0])).2.1 1 le_rfl (by decide)

end BrainTumor
